import Mathlib

/-!
# VFIO PCI NVLink2: GPU RAM region and NPU2 ATSD region

A shallow embedding of `drivers/vfio/pci/vfio_pci_nvlink2.c`.

* `unsigned long` / `size_t` values are natural numbers, the arithmetic the
  driver does on them is taken modulo `2 ^ 64`; `loff_t`, `long` and `int`
  values are integers.
* Pointers that the driver tests against `NULL` are `Option`s.
* Calls into the rest of the kernel are recorded, in program order, in a list
  of `Call`s; what such a call returns is an argument of the embedded function.
* Constants that come from kernel headers are the fields of `Consts`.
-/

namespace Nvlink2

/-! ## Constants from kernel headers -/

/-- Constants the driver uses and that are defined in kernel headers
(`asm/page.h`, `vfio_pci_private.h`, `asm/reg.h`, `errno-base.h`,
`linux/notifier.h`, `linux/mm.h`, `linux/vfio.h`, `linux/pci_ids.h`). Every
definition below takes them as a parameter. -/
structure Consts where
  PAGE_SHIFT : Nat
  VFIO_PCI_OFFSET_SHIFT : Nat
  VFIO_PCI_NUM_REGIONS : Nat
  MSR_DR : Nat
  MSR_PR : Nat
  MSR_HV : Nat
  EINVAL : Int
  EPERM : Int
  EFAULT : Int
  ENOMEM : Int
  NOTIFY_OK : Int
  NOTIFY_BAD : Int
  VM_PFNMAP : Nat
  VM_FAULT_SIGSEGV : Int
  VM_FAULT_NOPAGE : Int
  VFIO_GROUP_NOTIFY_SET_KVM : Nat
  VFIO_REGION_INFO_FLAG_READ : Nat
  PCI_VENDOR_ID_NVIDIA : Nat
  VFIO_REGION_TYPE_PCI_VENDOR_TYPE : Nat
  VFIO_REGION_SUBTYPE_NVIDIA_NVLINK2_RAM : Nat
deriving DecidableEq

/-- The values of the constants on a 64-bit powerpc build with 4 KiB pages;
used for concrete instances only. -/
def ppc64_4k : Consts where
  PAGE_SHIFT := 12
  VFIO_PCI_OFFSET_SHIFT := 40
  VFIO_PCI_NUM_REGIONS := 9
  MSR_DR := 0x10
  MSR_PR := 0x4000
  MSR_HV := 0x1000000000000000
  EINVAL := 22
  EPERM := 1
  EFAULT := 14
  ENOMEM := 12
  NOTIFY_OK := 1
  NOTIFY_BAD := 0x8002
  VM_PFNMAP := 0x400
  VM_FAULT_SIGSEGV := 0x40
  VM_FAULT_NOPAGE := 0x100
  VFIO_GROUP_NOTIFY_SET_KVM := 1
  VFIO_REGION_INFO_FLAG_READ := 1
  PCI_VENDOR_ID_NVIDIA := 0x10de
  VFIO_REGION_TYPE_PCI_VENDOR_TYPE := 0x80000000
  VFIO_REGION_SUBTYPE_NVIDIA_NVLINK2_RAM := 1

/-- `PAGE_SIZE`, that is `1UL << PAGE_SHIFT`. -/
def PAGE_SIZE (K : Consts) : Nat := 2 ^ K.PAGE_SHIFT

/-! ## Machine arithmetic -/

/-- Subtraction of two `unsigned long` values. -/
def sub_ul (a b : Nat) : Nat := (a + 2 ^ 64 - b % 2 ^ 64) % 2 ^ 64

/-- Addition of two `unsigned long` values. -/
def add_ul (a b : Nat) : Nat := (a + b) % 2 ^ 64

/-- Conversion of an integer to `size_t` / `unsigned long`. -/
def to_size_t (x : Int) : Nat := (x % 2 ^ 64).toNat

/-- Conversion of an integer to `loff_t` (signed, 64 bits). -/
def to_loff_t (x : Int) : Int := (x + 2 ^ 63) % 2 ^ 64 - 2 ^ 63

/-- Conversion of an integer to `int` (signed, 32 bits). -/
def to_int (x : Int) : Int := (x + 2 ^ 31) % 2 ^ 32 - 2 ^ 31

/-! ## Data model -/

/-- The `struct vfio_pci_gpu_nvlink2_data` of the source. `mm`, `mem` and
`gpdev` are pointers: `none` is `NULL`. The embedded notifier block carries
only the callback binding and has no field here. -/
structure vfio_pci_gpu_nvlink2_data where
  gpu_hpa : Nat
  useraddr : Nat
  size : Nat
  mm : Option Nat
  mem : Option Nat
  gpdev : Option Nat
deriving DecidableEq

/-- The `struct vfio_pci_npu2_atsd_data` of the source. -/
structure vfio_pci_npu2_atsd_data where
  mmio_atsd : Nat
  gpu_tgt : Nat
deriving DecidableEq

/-- The operation tables of the source. -/
inductive vfio_pci_regops where
  | vfio_pci_nvlink2_regops
  | vfio_pci_npu2_regops
deriving DecidableEq

/-- The fields of `struct vfio_pci_region` the driver reads or passes to
`vfio_pci_register_dev_region`. -/
structure vfio_pci_region where
  type : Nat
  subtype : Nat
  ops : vfio_pci_regops
  size : Nat
  flags : Nat
deriving DecidableEq

/-- The device: `vdev->pdev` and `vdev->region[]`, the table of device specific
regions. -/
structure vfio_pci_device where
  pdev : Nat
  region : List vfio_pci_region
deriving DecidableEq

/-- The `vm_operations_struct` tables of the source. -/
inductive vm_operations_struct where
  | vfio_pci_nvlink2_mmap_vmops
deriving DecidableEq

/-- The fields of `struct vm_area_struct` the driver reads or writes.
`vm_private_data` is `true` once it points at the GPU RAM region. -/
structure vm_area_struct where
  vm_start : Nat
  vm_end : Nat
  vm_pgoff : Nat
  vm_flags : Nat
  vm_page_prot : Nat
  vm_private_data : Bool
  vm_ops : Option vm_operations_struct
deriving DecidableEq

/-- Calls the driver makes into the rest of the kernel, with the arguments
that matter. -/
inductive Call where
  | copy_from_user (offset : Nat) (n : Nat)
  | copy_to_user (offset : Nat) (n : Nat)
  | mm_iommu_put (mm : Nat) (mem : Option Nat)
  | WARN
  | mmdrop (mm : Nat)
  | vfio_unregister_notifier (gpdev : Option Nat)
  | pnv_npu2_map_lpar_dev (gpdev : Option Nat) (lparid : Nat) (lpcr : Nat) (msr : Nat)
  | kfree
  | vm_insert_pfn (address : Nat) (pfn : Nat)
  | atomic_inc_mm_count (mm : Nat)
  | mm_iommu_newdev (mm : Nat) (ua : Nat) (entries : Nat) (dev_hpa : Nat)
  | remap_pfn_range (addr : Nat) (pfn : Nat) (size : Nat) (prot : Nat)
deriving DecidableEq

/-! ## `vfio_pci_nvlink2_rw` -/

/-- What `vfio_pci_nvlink2_rw` leaves behind: the value returned (a `size_t`),
the file position `*ppos`, and the user copy it issued, if any. -/
structure RwResult where
  ret : Nat
  ppos : Int
  calls : List Call
deriving DecidableEq

/-- The copy between the region buffer and user memory, at byte `offset` of the
buffer (`base + pos` in the source) and of `n` bytes. -/
def user_copy (iswrite : Bool) (offset n : Nat) : Call :=
  if iswrite then Call.copy_from_user offset n else Call.copy_to_user offset n

/-- Whether a call is a call of `mm_iommu_put`. -/
def Call.is_mm_iommu_put : Call → Bool
  | Call.mm_iommu_put _ _ => true
  | _ => false

/-- Whether a call is a call of `mmdrop`. -/
def Call.is_mmdrop : Call → Bool
  | Call.mmdrop _ => true
  | _ => false

/-- The byte offsets of the region buffer a call reads or writes: a user copy
of `n` bytes at `offset` touches `offset, ..., offset + n - 1`. -/
def Call.touches : Call → Nat → Prop
  | Call.copy_from_user offset n, o => offset ≤ o ∧ o < offset + n
  | Call.copy_to_user offset n, o => offset ≤ o ∧ o < offset + n
  | _, _ => False

/-- The region index `VFIO_PCI_OFFSET_TO_INDEX(*ppos) - VFIO_PCI_NUM_REGIONS`,
an `unsigned int`. -/
def rw_index (K : Consts) (ppos : Int) : Nat :=
  ((ppos / 2 ^ K.VFIO_PCI_OFFSET_SHIFT - K.VFIO_PCI_NUM_REGIONS) % 2 ^ 32).toNat

/-- The in-region position `*ppos & VFIO_PCI_OFFSET_MASK`. -/
def rw_pos (K : Consts) (ppos : Int) : Nat :=
  (ppos % 2 ^ K.VFIO_PCI_OFFSET_SHIFT).toNat

/-- The function `vfio_pci_nvlink2_rw`. `copy_user iswrite offset n` is what
`copy_from_user` / `copy_to_user` returns (the number of bytes not copied).
The result is `none` when `vdev->region[i]` is outside the region table. -/
def vfio_pci_nvlink2_rw (K : Consts) (copy_user : Bool → Nat → Nat → Nat)
    (vdev : vfio_pci_device) (count : Nat) (ppos : Int) (iswrite : Bool) :
    Option RwResult :=
  match vdev.region[rw_index K ppos]? with
  | none => none
  | some region =>
    let pos : Nat := rw_pos K ppos
    if pos ≥ region.size then
      some { ret := to_size_t (-K.EINVAL), ppos := ppos, calls := [] }
    else
      let count : Nat := min count (sub_ul region.size pos)
      if copy_user iswrite pos count ≠ 0 then
        some { ret := to_size_t (-K.EFAULT), ppos := ppos,
               calls := [user_copy iswrite pos count] }
      else
        some { ret := count, ppos := to_loff_t (ppos + count),
               calls := [user_copy iswrite pos count] }

/-- A region of 4 KiB, for concrete instances. -/
def rw_region : vfio_pci_region :=
  { type := 0x800010de, subtype := 1, ops := vfio_pci_regops.vfio_pci_nvlink2_regops,
    size := 0x1000, flags := 1 }

/-- A device whose only device specific region is `rw_region`. -/
def rw_vdev : vfio_pci_device := { pdev := 1, region := [rw_region] }

/-! ## `vfio_pci_nvlink2_release` -/

/-- The routing of the GPU link traffic: the partition and the access mode
last programmed through `pnv_npu2_map_lpar_dev`. -/
structure Routing where
  lparid : Nat
  lpcr : Nat
  msr : Nat
deriving DecidableEq

/-- Modelled from the spec: `pnv_npu2_map_lpar_dev` is platform code outside
this file ("hardware/firmware call that redirects a device's high-speed link
traffic to a given guest partition or back to host-exclusive mode"). A call
that returns 0 leaves the device routed as requested, a call that fails leaves
the routing as it was. -/
def pnv_npu2_map_lpar_dev (ret : Int) (r : Routing) (lparid lpcr msr : Nat) : Routing :=
  if ret = 0 then { lparid := lparid, lpcr := lpcr, msr := msr } else r

/-- The routing with no guest: partition 0, `MSR_DR | MSR_PR | MSR_HV`. -/
def host_routing (K : Consts) : Routing :=
  { lparid := 0, lpcr := 0, msr := K.MSR_DR ||| K.MSR_PR ||| K.MSR_HV }

/-- The routing into guest partition `lpid`: `MSR_DR | MSR_PR`. -/
def guest_routing (K : Consts) (lpid : Nat) : Routing :=
  { lparid := lpid, lpcr := 0, msr := K.MSR_DR ||| K.MSR_PR }

/-- What `vfio_pci_nvlink2_release` does: the calls it makes, the routing it
leaves, and whether an error is propagated (the function is `void`). -/
structure ReleaseResult where
  calls : List Call
  routing : Routing
  error : Option Int
deriving DecidableEq

/-- The function `vfio_pci_nvlink2_release`. `mm_iommu_put_ret` and
`map_lpar_ret` are what `mm_iommu_put` and `pnv_npu2_map_lpar_dev` return. -/
def vfio_pci_nvlink2_release (K : Consts) (mm_iommu_put_ret map_lpar_ret : Int)
    (data : vfio_pci_gpu_nvlink2_data) (r : Routing) : ReleaseResult :=
  let unmap : List Call :=
    match data.mm with
    | some mm =>
      [Call.mm_iommu_put mm data.mem] ++
        (if mm_iommu_put_ret ≠ 0 then [Call.WARN] else []) ++ [Call.mmdrop mm]
    | none => []
  let msr : Nat := K.MSR_DR ||| K.MSR_PR ||| K.MSR_HV
  { calls := unmap ++
      [Call.vfio_unregister_notifier data.gpdev,
       Call.pnv_npu2_map_lpar_dev data.gpdev 0 0 msr,
       Call.kfree],
    routing := pnv_npu2_map_lpar_dev map_lpar_ret r 0 0 msr,
    error := none }

/-! ## `vfio_pci_nvlink2_mmap_fault` -/

/-- The mask `(1U << (VFIO_PCI_OFFSET_SHIFT - PAGE_SHIFT)) - 1`, an
`unsigned int`. -/
def pgoff_mask (K : Consts) : Nat :=
  (2 ^ (K.VFIO_PCI_OFFSET_SHIFT - K.PAGE_SHIFT) % 2 ^ 32 + 2 ^ 32 - 1) % 2 ^ 32

/-- The local `vm_pgoff` of the fault handler: the page offset of the mapping
inside the region. -/
def region_pgoff (K : Consts) (vma : vm_area_struct) : Nat :=
  vma.vm_pgoff &&& pgoff_mask K

/-- The local `vmf_off` of the fault handler. -/
def vmf_off (K : Consts) (vma : vm_area_struct) (address : Nat) : Nat :=
  sub_ul address vma.vm_start >>> K.PAGE_SHIFT

/-- The local `pfn` of the fault handler: `nv2pg + vm_pgoff + vmf_off`. -/
def fault_pfn (K : Consts) (data : vfio_pci_gpu_nvlink2_data) (vma : vm_area_struct)
    (address : Nat) : Nat :=
  let nv2pg : Nat := data.gpu_hpa >>> K.PAGE_SHIFT
  add_ul (add_ul nv2pg (region_pgoff K vma)) (vmf_off K vma address)

/-- The page index of a fault address inside the region, `vm_pgoff + vmf_off`
in the fault handler. -/
def page_index (K : Consts) (vma : vm_area_struct) (address : Nat) : Nat :=
  region_pgoff K vma + vmf_off K vma address

/-- The value returned by the fault handler and the call it made. -/
structure FaultResult where
  ret : Int
  calls : List Call
deriving DecidableEq

/-- The function `vfio_pci_nvlink2_mmap_fault`; `data` is
`vma->vm_private_data->data`, `vm_insert_pfn_ret` what `vm_insert_pfn`
returns. -/
def vfio_pci_nvlink2_mmap_fault (K : Consts) (vm_insert_pfn_ret : Int)
    (data : vfio_pci_gpu_nvlink2_data) (vma : vm_area_struct) (address : Nat) :
    FaultResult :=
  let pfn : Nat := fault_pfn K data vma address
  { ret := if vm_insert_pfn_ret ≠ 0 then K.VM_FAULT_SIGSEGV else K.VM_FAULT_NOPAGE,
    calls := [Call.vm_insert_pfn address pfn] }

/-! ## `vfio_pci_nvlink2_mmap` -/

/-- What `mm_iommu_newdev` hands back: its return value, and the handle it
stored through its last argument, if it stored one. -/
structure NewdevOut where
  ret : Int
  mem : Option Nat
deriving DecidableEq

/-- The state `vfio_pci_nvlink2_mmap` leaves: the value returned, the region
data, the vma, and the calls made. -/
structure MmapResult where
  ret : Int
  data : vfio_pci_gpu_nvlink2_data
  vma : vm_area_struct
  calls : List Call
deriving DecidableEq

/-- The function `vfio_pci_nvlink2_mmap`. `current_mm` is `current->mm`,
`newdev mm ua entries dev_hpa` what `mm_iommu_newdev` hands back. -/
def vfio_pci_nvlink2_mmap (K : Consts) (current_mm : Nat)
    (newdev : Nat → Nat → Nat → Nat → NewdevOut)
    (data : vfio_pci_gpu_nvlink2_data) (vma : vm_area_struct) : MmapResult :=
  if data.useraddr ≠ 0 then
    { ret := -K.EPERM, data := data, vma := vma, calls := [] }
  else if sub_ul vma.vm_end vma.vm_start > data.size then
    { ret := -K.EINVAL, data := data, vma := vma, calls := [] }
  else
    let vma1 : vm_area_struct :=
      { vma with vm_private_data := true, vm_flags := vma.vm_flags ||| K.VM_PFNMAP,
                 vm_ops := some vm_operations_struct.vfio_pci_nvlink2_mmap_vmops }
    let data1 : vfio_pci_gpu_nvlink2_data :=
      { data with useraddr := vma.vm_start, mm := some current_mm }
    let entries : Nat := sub_ul vma.vm_end vma.vm_start >>> K.PAGE_SHIFT
    let out : NewdevOut := newdev current_mm data1.useraddr entries data1.gpu_hpa
    let data2 : vfio_pci_gpu_nvlink2_data :=
      match out.mem with
      | some m => { data1 with mem := some m }
      | none => data1
    { ret := to_int out.ret, data := data2, vma := vma1,
      calls := [Call.atomic_inc_mm_count current_mm,
                Call.mm_iommu_newdev current_mm data1.useraddr entries data1.gpu_hpa] }

/-- References on `mm` taken (`atomic_inc` of `mm_count`) and not yet dropped
(`mmdrop`) by a sequence of calls. -/
def mm_refs_held (mm : Nat) (calls : List Call) : Int :=
  (calls.count (Call.atomic_inc_mm_count mm) : Int) - (calls.count (Call.mmdrop mm) : Int)

/-- One `vfio_pci_nvlink2_mmap` request against a region: the process, the
answer of `mm_iommu_newdev`, and the vma. -/
structure MmapRequest where
  current_mm : Nat
  newdev : NewdevOut
  vma : vm_area_struct
deriving DecidableEq

/-- The region data after a sequence of `vfio_pci_nvlink2_mmap` calls. -/
def mmap_run (K : Consts) (data : vfio_pci_gpu_nvlink2_data) :
    List MmapRequest → vfio_pci_gpu_nvlink2_data
  | [] => data
  | q :: qs =>
    mmap_run K (vfio_pci_nvlink2_mmap K q.current_mm (fun _ _ _ _ => q.newdev) data q.vma).data qs

/-- The region data as `vfio_pci_nvlink2_init` leaves it for GPU RAM at
0x0002000000000000 of 64 GiB: nothing mapped yet. -/
def gpu_data : vfio_pci_gpu_nvlink2_data :=
  { gpu_hpa := 0x0002000000000000, size := 0x1000000000, useraddr := 0,
    mm := none, mem := none, gpdev := some 1 }

/-- A vma of 64 KiB that starts at user address 0, at offset 0 of region 9. -/
def vma_at_zero : vm_area_struct :=
  { vm_start := 0, vm_end := 0x10000, vm_pgoff := 0x90000000, vm_flags := 0,
    vm_page_prot := 0, vm_private_data := false, vm_ops := none }

/-- A vma of 64 KiB at user address 0x7fff00000000, at offset 0 of region 9. -/
def vma_64k : vm_area_struct :=
  { vm_start := 0x7fff00000000, vm_end := 0x7fff00010000, vm_pgoff := 0x90000000,
    vm_flags := 0, vm_page_prot := 0, vm_private_data := false, vm_ops := none }

/-- A vma of 128 GiB, longer than the GPU RAM of `gpu_data`. -/
def vma_128g : vm_area_struct :=
  { vm_start := 0x7000000000, vm_end := 0x9000000000, vm_pgoff := 0x90000000,
    vm_flags := 0, vm_page_prot := 0, vm_private_data := false, vm_ops := none }

/-- The region data of `gpu_data` once mapped at 0x7fff00000000 by process 7. -/
def gpu_data_mapped : vfio_pci_gpu_nvlink2_data :=
  { gpu_data with useraddr := 0x7fff00000000, mm := some 7, mem := some 1 }

/-- A vma that covers the whole 64 GiB of `gpu_data` at user address
0x7fff00000000, at offset 0 of region 9. -/
def vma_full : vm_area_struct :=
  { vm_start := 0x7fff00000000, vm_end := 0x800f00000000, vm_pgoff := 0x90000000,
    vm_flags := 0, vm_page_prot := 0, vm_private_data := false, vm_ops := none }

/-- The region data for GPU RAM of a single 4 KiB page at 0x0002000000000000. -/
def one_page_data : vfio_pci_gpu_nvlink2_data :=
  { gpu_hpa := 0x0002000000000000, size := 0x1000, useraddr := 0,
    mm := none, mem := none, gpdev := some 1 }

/-- A vma of one 4 KiB page at user address 0x7fff00000000, at page offset 1
of region 9. -/
def vma_page_off1 : vm_area_struct :=
  { vm_start := 0x7fff00000000, vm_end := 0x7fff00001000, vm_pgoff := 0x90000001,
    vm_flags := 0, vm_page_prot := 0, vm_private_data := false, vm_ops := none }

/-- A vma of 64 KiB at user address 0x7fff00000000, at page offset 3 of
region 9. -/
def vma_64k_off3 : vm_area_struct :=
  { vm_start := 0x7fff00000000, vm_end := 0x7fff00010000, vm_pgoff := 0x90000003,
    vm_flags := 0, vm_page_prot := 0, vm_private_data := false, vm_ops := none }

/-! ## `vfio_pci_nvlink2_group_notifier` -/

/-- The value returned by the notifier callback, the routing it leaves and the
calls it made. -/
structure NotifyResult where
  ret : Int
  routing : Routing
  calls : List Call
deriving DecidableEq

/-- The function `vfio_pci_nvlink2_group_notifier`. `kvm` is the `opaque`
argument: `none` is `NULL`, `some lpid` a guest whose `kvm->arch.lpid` is
`lpid`. `map_lpar_ret` is what `pnv_npu2_map_lpar_dev` returns. -/
def vfio_pci_nvlink2_group_notifier (K : Consts) (map_lpar_ret : Int)
    (data : vfio_pci_gpu_nvlink2_data) (r : Routing) (action : Nat) (kvm : Option Nat) :
    NotifyResult :=
  if action = K.VFIO_GROUP_NOTIFY_SET_KVM then
    match kvm with
    | none =>
      let msr : Nat := K.MSR_DR ||| K.MSR_PR ||| K.MSR_HV
      { ret := if map_lpar_ret ≠ 0 then K.NOTIFY_BAD else K.NOTIFY_OK,
        routing := pnv_npu2_map_lpar_dev map_lpar_ret r 0 0 msr,
        calls := [Call.pnv_npu2_map_lpar_dev data.gpdev 0 0 msr] }
    | some lpid =>
      let msr : Nat := K.MSR_DR ||| K.MSR_PR
      { ret := if map_lpar_ret ≠ 0 then K.NOTIFY_BAD else K.NOTIFY_OK,
        routing := pnv_npu2_map_lpar_dev map_lpar_ret r lpid 0 msr,
        calls := [Call.pnv_npu2_map_lpar_dev data.gpdev lpid 0 msr] }
  else
    { ret := K.NOTIFY_OK, routing := r, calls := [] }

/-! ## `vfio_pci_npu2_mmap` -/

/-- The state `vfio_pci_npu2_mmap` leaves. -/
structure Npu2MmapResult where
  ret : Int
  vma : vm_area_struct
  calls : List Call
deriving DecidableEq

/-- The function `vfio_pci_npu2_mmap`. `pgprot_noncached` is the architecture
macro of that name, `remap_ret` what `remap_pfn_range` returns. -/
def vfio_pci_npu2_mmap (K : Consts) (pgprot_noncached : Nat → Nat) (remap_ret : Int)
    (data : vfio_pci_npu2_atsd_data) (vma : vm_area_struct) : Npu2MmapResult :=
  let req_len : Nat := sub_ul vma.vm_end vma.vm_start
  if req_len ≠ PAGE_SIZE K then
    { ret := -K.EINVAL, vma := vma, calls := [] }
  else
    let vma1 : vm_area_struct :=
      { vma with vm_flags := vma.vm_flags ||| K.VM_PFNMAP,
                 vm_page_prot := pgprot_noncached vma.vm_page_prot }
    { ret := remap_ret, vma := vma1,
      calls := [Call.remap_pfn_range vma1.vm_start (data.mmio_atsd >>> K.PAGE_SHIFT)
                  req_len vma1.vm_page_prot] }

/-- An ATSD register page at 0x6030200000000, for concrete instances. -/
def atsd_data : vfio_pci_npu2_atsd_data :=
  { mmio_atsd := 0x6030200000000, gpu_tgt := 0x1000000000000 }

/-- A vma of exactly one 4 KiB page at user address 0x7fff00000000. -/
def vma_one_page : vm_area_struct :=
  { vm_start := 0x7fff00000000, vm_end := 0x7fff00001000, vm_pgoff := 0xa0000000,
    vm_flags := 0, vm_page_prot := 0, vm_private_data := false, vm_ops := none }

/-! ## `vfio_pci_nvlink2_init` -/

/-- What the platform and the kernel answer during `vfio_pci_nvlink2_init`:
the lookups (`none` is `NULL`), the bytes of the `reg` property, whether
`kzalloc` succeeds, and the values returned by the two registration calls. -/
structure InitEnv where
  npu_dev : Option Nat
  npu_node : Option Nat
  mem_phandle : Option Nat
  mem_node : Option Nat
  reg : Option (List Nat)
  kzalloc : Bool
  register_ret : Int
  notifier_ret : Int
deriving DecidableEq

/-- The allocation made by `kzalloc` in `vfio_pci_nvlink2_init`. -/
inductive Alloc where
  | never
  | live (data : vfio_pci_gpu_nvlink2_data)
  | freed
deriving DecidableEq

/-- The state `vfio_pci_nvlink2_init` leaves: the value returned, the device
with its region table, whether the group notifier is registered, and the
allocation. -/
structure InitResult where
  ret : Int
  vdev : vfio_pci_device
  notifier : Bool
  data : Alloc
deriving DecidableEq

/-- The 32-bit big-endian cell `val[k]` of a property, `be32_to_cpu(val[k])`. -/
def be32_to_cpu (bytes : List Nat) (k : Nat) : Nat :=
  bytes.getD (4 * k) 0 * 2 ^ 24 + bytes.getD (4 * k + 1) 0 * 2 ^ 16 +
    bytes.getD (4 * k + 2) 0 * 2 ^ 8 + bytes.getD (4 * k + 3) 0

/-- Modelled from the spec: `vfio_pci_register_dev_region` is part of the
passthrough framework outside this file ("registerRegion(typeTag, subtype,
handlerSet, size, flags, backingData) -> regionIndex | error"). When it
returns 0 the region is in the device's table, otherwise the table is as it
was. -/
def vfio_pci_register_dev_region (ret : Int) (vdev : vfio_pci_device)
    (region : vfio_pci_region) : vfio_pci_device :=
  if ret = 0 then { vdev with region := vdev.region ++ [region] } else vdev

/-- The function `vfio_pci_nvlink2_init`. Nothing unregisters a region: the
label `unreg_exit` of the source is empty. -/
def vfio_pci_nvlink2_init (K : Consts) (env : InitEnv) (vdev : vfio_pci_device) :
    InitResult :=
  let fail (e : Int) : InitResult :=
    { ret := e, vdev := vdev, notifier := false, data := Alloc.never }
  match env.npu_dev with
  | none => fail (-K.EINVAL)
  | some _ =>
  match env.npu_node with
  | none => fail (-K.EINVAL)
  | some _ =>
  match env.mem_phandle with
  | none => fail (-K.EINVAL)
  | some _ =>
  match env.mem_node with
  | none => fail (-K.EINVAL)
  | some _ =>
  match env.reg with
  | none => fail (-K.EINVAL)
  | some val =>
  if (val.length : Int) ≠ 2 * 8 then fail (-K.EINVAL)
  else if env.kzalloc = false then fail (-K.ENOMEM)
  else
    let data : vfio_pci_gpu_nvlink2_data :=
      { gpu_hpa := (be32_to_cpu val 0 * 2 ^ 32 % 2 ^ 64) ||| be32_to_cpu val 1,
        size := (be32_to_cpu val 2 * 2 ^ 32 % 2 ^ 64) ||| be32_to_cpu val 3,
        useraddr := 0, mm := none, mem := none, gpdev := none }
    let region : vfio_pci_region :=
      { type := K.PCI_VENDOR_ID_NVIDIA ||| K.VFIO_REGION_TYPE_PCI_VENDOR_TYPE,
        subtype := K.VFIO_REGION_SUBTYPE_NVIDIA_NVLINK2_RAM,
        ops := vfio_pci_regops.vfio_pci_nvlink2_regops, size := data.size,
        flags := K.VFIO_REGION_INFO_FLAG_READ }
    let vdev1 : vfio_pci_device := vfio_pci_register_dev_region env.register_ret vdev region
    if env.register_ret ≠ 0 then
      { ret := env.register_ret, vdev := vdev1, notifier := false, data := Alloc.freed }
    else
      let data1 : vfio_pci_gpu_nvlink2_data := { data with gpdev := some vdev.pdev }
      if env.notifier_ret ≠ 0 then
        { ret := env.notifier_ret, vdev := vdev1, notifier := false, data := Alloc.freed }
      else
        { ret := 0, vdev := vdev1, notifier := true, data := Alloc.live data1 }

/-- A platform description with GPU RAM at 0x0002000000000000 of 64 GiB, where
the allocation and the region registration succeed and the registration of the
group notifier fails with -22. -/
def init_env_notifier_fails : InitEnv :=
  { npu_dev := some 2, npu_node := some 3, mem_phandle := some 4, mem_node := some 5,
    reg := some [0, 2, 0, 0, 0, 0, 0, 0, 0, 0, 0, 0x10, 0, 0, 0, 0],
    kzalloc := true, register_ret := 0, notifier_ret := -22 }

/-- A device with no device specific region yet. -/
def init_vdev : vfio_pci_device := { pdev := 1, region := [] }

/-! ## Machine arithmetic: lemmas -/

theorem sub_ul_of_le {a b : Nat} (hab : b ≤ a) (ha : a < 2 ^ 64) : sub_ul a b = a - b := by
  unfold sub_ul
  omega

theorem sub_ul_lt (a b : Nat) : sub_ul a b < 2 ^ 64 := by
  unfold sub_ul
  omega

theorem to_loff_t_of_range {x : Int} (hlo : -(2 ^ 63) ≤ x) (hhi : x < 2 ^ 63) :
    to_loff_t x = x := by
  unfold to_loff_t
  omega

theorem user_copy_touches (iswrite : Bool) (offset n o : Nat) :
    (user_copy iswrite offset n).touches o ↔ offset ≤ o ∧ o < offset + n := by
  cases iswrite <;> simp [user_copy, Call.touches]

/-! ## `vfio_pci_nvlink2_rw` -/

/-- C1: for the region `vfio_pci_nvlink2_rw` selects, for every region size,
in-region position `pos = *ppos & VFIO_PCI_OFFSET_MASK`, count and direction:
if `pos >= size` the call returns `-EINVAL` (as a `size_t`), makes no copy and
leaves `*ppos` as it was; otherwise, when the user copy succeeds, it copies
exactly `min count (size - pos)` bytes at offset `pos`, returns that number,
every byte offset touched lies in `[pos, pos + returned)` and below `size`, and
`*ppos` has advanced by exactly that number (the new position being a
representable `loff_t`). -/
theorem rw_contract (K : Consts) (copy_user : Bool → Nat → Nat → Nat)
    (vdev : vfio_pci_device) (region : vfio_pci_region) (count : Nat) (ppos : Int)
    (iswrite : Bool)
    (hregion : vdev.region[rw_index K ppos]? = some region)
    (hsize : region.size < 2 ^ 64) :
    (region.size ≤ rw_pos K ppos →
      vfio_pci_nvlink2_rw K copy_user vdev count ppos iswrite =
        some { ret := to_size_t (-K.EINVAL), ppos := ppos, calls := [] }) ∧
    (rw_pos K ppos < region.size →
      copy_user iswrite (rw_pos K ppos) (min count (region.size - rw_pos K ppos)) = 0 →
      ∃ res, vfio_pci_nvlink2_rw K copy_user vdev count ppos iswrite = some res ∧
        res.ret = min count (region.size - rw_pos K ppos) ∧
        res.calls = [user_copy iswrite (rw_pos K ppos) res.ret] ∧
        (∀ c ∈ res.calls, ∀ o, c.touches o →
          rw_pos K ppos ≤ o ∧ o < rw_pos K ppos + res.ret ∧ o < region.size) ∧
        rw_pos K ppos + res.ret ≤ region.size ∧
        (-(2 ^ 63) ≤ ppos → ppos + res.ret < 2 ^ 63 → res.ppos = ppos + res.ret)) := by
  constructor
  · intro hge
    simp [vfio_pci_nvlink2_rw, hregion, hge]
  · intro hlt hcopy
    have hsub : sub_ul region.size (rw_pos K ppos) = region.size - rw_pos K ppos :=
      sub_ul_of_le (Nat.le_of_lt hlt) hsize
    have hnot : ¬ region.size ≤ rw_pos K ppos := Nat.not_le.mpr hlt
    refine ⟨{ ret := min count (region.size - rw_pos K ppos),
              ppos := to_loff_t (ppos + (min count (region.size - rw_pos K ppos) : Nat)),
              calls := [user_copy iswrite (rw_pos K ppos)
                          (min count (region.size - rw_pos K ppos))] }, ?_, rfl, rfl, ?_, ?_, ?_⟩
    · simp [vfio_pci_nvlink2_rw, hregion, hnot, hsub, hcopy]
    · intro c hc o ho
      simp only [List.mem_singleton] at hc
      subst hc
      rw [user_copy_touches] at ho
      have hmin : min count (region.size - rw_pos K ppos) ≤ region.size - rw_pos K ppos :=
        Nat.min_le_right _ _
      refine ⟨ho.1, ho.2, ?_⟩
      omega
    · have hmin : min count (region.size - rw_pos K ppos) ≤ region.size - rw_pos K ppos :=
        Nat.min_le_right _ _
      show rw_pos K ppos + min count (region.size - rw_pos K ppos) ≤ region.size
      omega
    · intro hlo hhi
      show to_loff_t (ppos + (min count (region.size - rw_pos K ppos) : Nat)) = _
      apply to_loff_t_of_range
      · have : (0 : Int) ≤ ((min count (region.size - rw_pos K ppos) : Nat) : Int) :=
          Int.ofNat_nonneg _
        omega
      · exact hhi

/-- Instance of `rw_contract`: a read of 0x100 bytes at position 0xff0 of a
4 KiB region (region index 9, the first device specific one) copies the last
0x10 bytes and advances the position by 0x10; a write at position 0x1000 is
refused with `-EINVAL`. -/
theorem rw_contract_witness :
    vfio_pci_nvlink2_rw ppc64_4k (fun _ _ _ => 0) rw_vdev 0x100 (9 * 2 ^ 40 + 0xff0) false
      = some { ret := 0x10, ppos := 9 * 2 ^ 40 + 0x1000,
               calls := [Call.copy_to_user 0xff0 0x10] } ∧
    vfio_pci_nvlink2_rw ppc64_4k (fun _ _ _ => 0) rw_vdev 0x100 (9 * 2 ^ 40 + 0x1000) true
      = some { ret := 2 ^ 64 - 22, ppos := 9 * 2 ^ 40 + 0x1000, calls := [] } := by
  have h1 := (rw_contract ppc64_4k (fun _ _ _ => 0) rw_vdev rw_region 0x100
    (9 * 2 ^ 40 + 0xff0) false (by decide) (by decide)).2 (by decide) rfl
  have h2 := (rw_contract ppc64_4k (fun _ _ _ => 0) rw_vdev rw_region 0x100
    (9 * 2 ^ 40 + 0x1000) true (by decide) (by decide)).1 (by decide)
  obtain ⟨res, hres, hret, hcalls, -, -, hpos⟩ := h1
  have hret2 : res.ret = 0x10 := by rw [hret]; decide
  have hpos2 : res.ppos = 9 * 2 ^ 40 + 0x1000 := by
    rw [hpos (by decide) (by rw [hret2]; decide), hret2]; decide
  have hcalls2 : res.calls = [Call.copy_to_user 0xff0 0x10] := by
    rw [hcalls, hret2]; decide
  refine ⟨?_, ?_⟩
  · rw [hres]
    cases res
    simp only at hret2 hpos2 hcalls2
    subst hret2 hpos2 hcalls2
    rfl
  · rw [h2]
    decide

/-! ## `vfio_pci_nvlink2_mmap` -/

/-- A call on a region whose `useraddr` is set is refused with `-EPERM` and
changes nothing. -/
theorem mmap_eperm (K : Consts) (current_mm : Nat) (newdev : Nat → Nat → Nat → Nat → NewdevOut)
    (data : vfio_pci_gpu_nvlink2_data) (vma : vm_area_struct) (h : data.useraddr ≠ 0) :
    vfio_pci_nvlink2_mmap K current_mm newdev data vma =
      { ret := -K.EPERM, data := data, vma := vma, calls := [] } := by
  simp [vfio_pci_nvlink2_mmap, h]

/-- A call that passes both checks records the start of the vma in `useraddr`
and the calling process in `mm`, whatever `mm_iommu_newdev` answers. -/
theorem mmap_accepted (K : Consts) (current_mm : Nat)
    (newdev : Nat → Nat → Nat → Nat → NewdevOut)
    (data : vfio_pci_gpu_nvlink2_data) (vma : vm_area_struct)
    (h0 : data.useraddr = 0) (hlen : sub_ul vma.vm_end vma.vm_start ≤ data.size) :
    (vfio_pci_nvlink2_mmap K current_mm newdev data vma).data.useraddr = vma.vm_start ∧
    (vfio_pci_nvlink2_mmap K current_mm newdev data vma).data.mm = some current_mm ∧
    (vfio_pci_nvlink2_mmap K current_mm newdev data vma).ret =
      to_int (newdev current_mm vma.vm_start
        (sub_ul vma.vm_end vma.vm_start >>> K.PAGE_SHIFT) data.gpu_hpa).ret := by
  have hlen2 : ¬ sub_ul vma.vm_end vma.vm_start > data.size := Nat.not_lt.mpr hlen
  simp only [vfio_pci_nvlink2_mmap, h0, hlen2, ne_eq, not_true_eq_false, if_false]
  refine ⟨?_, ?_, trivial⟩ <;> split <;> rfl

/-- The part of the once-only rule the code does enforce: when the first
accepted call maps at a start address other than 0, every later call on the
region is refused with `-EPERM`, whatever it asks for. -/
theorem mmap_once_of_start_ne_zero (K : Consts) (mm1 mm2 : Nat)
    (newdev1 newdev2 : Nat → Nat → Nat → Nat → NewdevOut)
    (data : vfio_pci_gpu_nvlink2_data) (vma1 vma2 : vm_area_struct)
    (h0 : data.useraddr = 0) (hlen : sub_ul vma1.vm_end vma1.vm_start ≤ data.size)
    (hstart : vma1.vm_start ≠ 0) :
    (vfio_pci_nvlink2_mmap K mm2 newdev2
      (vfio_pci_nvlink2_mmap K mm1 newdev1 data vma1).data vma2).ret = -K.EPERM := by
  have h := (mmap_accepted K mm1 newdev1 data vma1 h0 hlen).1
  rw [mmap_eperm K mm2 newdev2 _ vma2 (by rw [h]; exact hstart)]

/-- Once `useraddr` is set no sequence of further calls changes the region
data: each of them is refused. -/
theorem mmap_run_of_useraddr_ne_zero (K : Consts) (data : vfio_pci_gpu_nvlink2_data)
    (h : data.useraddr ≠ 0) (qs : List MmapRequest) : mmap_run K data qs = data := by
  induction qs with
  | nil => rfl
  | cons q qs ih =>
    unfold mmap_run
    rw [mmap_eperm K q.current_mm _ data q.vma h]
    exact ih

/-- One direction of the pairing of `mem` and `mm` holds in every state
reachable from a state where it holds, by any sequence of
`vfio_pci_nvlink2_mmap` calls and whatever `mm_iommu_newdev` answers: a region
with a handle has an owner process. -/
theorem mmap_run_mem_imp_mm (K : Consts) (qs : List MmapRequest)
    (data : vfio_pci_gpu_nvlink2_data) (h : data.mem.isSome → data.mm.isSome) :
    (mmap_run K data qs).mem.isSome → (mmap_run K data qs).mm.isSome := by
  induction qs generalizing data with
  | nil => exact h
  | cons q qs ih =>
    unfold mmap_run
    apply ih
    unfold vfio_pci_nvlink2_mmap
    split
    · exact h
    · split
      · exact h
      · dsimp only
        split <;> intro _ <;> rfl

/-- C2: the once-only rule fails for a first mapping at user address 0. On the
fresh region `gpu_data` a first `vfio_pci_nvlink2_mmap` of `[0, 0x10000)`
succeeds and leaves `useraddr = 0`; a second call on the same region is then
not refused with `-EPERM`: it returns 0, registers the GPU RAM with
`mm_iommu_newdev` a second time and replaces the handle. -/
theorem mmap_twice_at_zero :
    (vfio_pci_nvlink2_mmap ppc64_4k 7 (fun _ _ _ _ => { ret := 0, mem := some 1 })
      gpu_data vma_at_zero).ret = 0 ∧
    (vfio_pci_nvlink2_mmap ppc64_4k 7 (fun _ _ _ _ => { ret := 0, mem := some 1 })
      gpu_data vma_at_zero).data = { gpu_data with mm := some 7, mem := some 1 } ∧
    vfio_pci_nvlink2_mmap ppc64_4k 7 (fun _ _ _ _ => { ret := 0, mem := some 2 })
      (vfio_pci_nvlink2_mmap ppc64_4k 7 (fun _ _ _ _ => { ret := 0, mem := some 1 })
        gpu_data vma_at_zero).data vma_64k =
      { ret := 0,
        data := { gpu_data with useraddr := 0x7fff00000000, mm := some 7, mem := some 2 },
        vma := { vm_start := 0x7fff00000000, vm_end := 0x7fff00010000,
                 vm_pgoff := 0x90000000, vm_flags := 0x400, vm_page_prot := 0,
                 vm_private_data := true,
                 vm_ops := some vm_operations_struct.vfio_pci_nvlink2_mmap_vmops },
        calls := [Call.atomic_inc_mm_count 7,
                  Call.mm_iommu_newdev 7 0x7fff00000000 0x10 0x0002000000000000] } ∧
    (0 : Int) ≠ -ppc64_4k.EPERM := by
  decide

/-- C3 as stated fails: on the region `gpu_data_mapped`, which is already
mapped, a request of 128 GiB (more than the 64 GiB of the region) is refused
with `-EPERM`, not with `-EINVAL`. -/
theorem mmap_too_long_on_mapped_region :
    sub_ul vma_128g.vm_end vma_128g.vm_start > gpu_data_mapped.size ∧
    (vfio_pci_nvlink2_mmap ppc64_4k 7 (fun _ _ _ _ => { ret := 0, mem := some 2 })
      gpu_data_mapped vma_128g).ret = -ppc64_4k.EPERM ∧
    (vfio_pci_nvlink2_mmap ppc64_4k 7 (fun _ _ _ _ => { ret := 0, mem := some 2 })
      gpu_data_mapped vma_128g).ret ≠ -ppc64_4k.EINVAL := by
  decide

/-- C3, amended: for every region state and every requested range whose length
`vm_end - vm_start` is greater than the size of the region,
`vfio_pci_nvlink2_mmap` fails, with `-EINVAL` when the region is not mapped
yet (`useraddr = 0`) and with `-EPERM` when it is; it makes no call (so no
`mm_iommu_newdev`) and leaves the region data and the vma as they were. -/
theorem mmap_too_long (K : Consts) (current_mm : Nat)
    (newdev : Nat → Nat → Nat → Nat → NewdevOut)
    (data : vfio_pci_gpu_nvlink2_data) (vma : vm_area_struct)
    (hlen : sub_ul vma.vm_end vma.vm_start > data.size) :
    vfio_pci_nvlink2_mmap K current_mm newdev data vma =
      { ret := if data.useraddr = 0 then -K.EINVAL else -K.EPERM,
        data := data, vma := vma, calls := [] } := by
  by_cases h : data.useraddr = 0
  · simp [vfio_pci_nvlink2_mmap, h, hlen]
  · simp [vfio_pci_nvlink2_mmap, h]

/-- Instance of `mmap_too_long`: 128 GiB asked of the 64 GiB region `gpu_data`,
not mapped yet, is refused with `-EINVAL` (-22). -/
theorem mmap_too_long_witness :
    vfio_pci_nvlink2_mmap ppc64_4k 7 (fun _ _ _ _ => { ret := 0, mem := some 2 })
      gpu_data vma_128g =
      { ret := -22, data := gpu_data, vma := vma_128g, calls := [] } := by
  rw [mmap_too_long ppc64_4k 7 _ gpu_data vma_128g (by decide)]
  decide

/-- C4: the invariant fails after an `mm_iommu_newdev` error. On the fresh
region `gpu_data`, a `vfio_pci_nvlink2_mmap` whose `mm_iommu_newdev` returns
-16 fails with -16 and leaves `mm` set with `mem` unset, keeps the reference
taken on the process, and leaves `useraddr` set; `vfio_pci_nvlink2_release`
then hands the unset handle to `mm_iommu_put`. -/
theorem mmap_newdev_error_keeps_mm :
    (vfio_pci_nvlink2_mmap ppc64_4k 7 (fun _ _ _ _ => { ret := -16, mem := none })
      gpu_data vma_64k).ret = -16 ∧
    (mmap_run ppc64_4k gpu_data
      [{ current_mm := 7, newdev := { ret := -16, mem := none }, vma := vma_64k }]).mm
        = some 7 ∧
    (mmap_run ppc64_4k gpu_data
      [{ current_mm := 7, newdev := { ret := -16, mem := none }, vma := vma_64k }]).mem
        = none ∧
    (mmap_run ppc64_4k gpu_data
      [{ current_mm := 7, newdev := { ret := -16, mem := none }, vma := vma_64k }]).useraddr
        = 0x7fff00000000 ∧
    mm_refs_held 7 (vfio_pci_nvlink2_mmap ppc64_4k 7
      (fun _ _ _ _ => { ret := -16, mem := none }) gpu_data vma_64k).calls = 1 ∧
    Call.mm_iommu_put 7 none ∈
      (vfio_pci_nvlink2_release ppc64_4k 0 0
        (mmap_run ppc64_4k gpu_data
          [{ current_mm := 7, newdev := { ret := -16, mem := none }, vma := vma_64k }])
        (host_routing ppc64_4k)).calls := by
  decide

/-! ## `vfio_pci_nvlink2_mmap_fault` -/

theorem pgoff_mask_lt (K : Consts) : pgoff_mask K < 2 ^ 32 := by
  unfold pgoff_mask
  omega

theorem region_pgoff_lt (K : Consts) (vma : vm_area_struct) : region_pgoff K vma < 2 ^ 32 :=
  Nat.lt_of_le_of_lt Nat.and_le_right (pgoff_mask_lt K)

theorem shiftRight_lt_of_two_le {x s : Nat} (hx : x < 2 ^ 64) (hs : 2 ≤ s) :
    x >>> s < 2 ^ 62 := by
  rw [Nat.shiftRight_eq_div_pow]
  have h4 : 2 ^ 2 ≤ 2 ^ s := Nat.pow_le_pow_right (by decide) hs
  have hle : x / 2 ^ s ≤ x / 2 ^ 2 := Nat.div_le_div_left h4 (by decide)
  omega

/-- None of the fields the fault handler reads is changed by
`vfio_pci_nvlink2_mmap`. -/
theorem mmap_keeps_window (K : Consts) (current_mm : Nat)
    (newdev : Nat → Nat → Nat → Nat → NewdevOut)
    (data : vfio_pci_gpu_nvlink2_data) (vma : vm_area_struct) :
    (vfio_pci_nvlink2_mmap K current_mm newdev data vma).data.gpu_hpa = data.gpu_hpa ∧
    (vfio_pci_nvlink2_mmap K current_mm newdev data vma).data.size = data.size ∧
    (vfio_pci_nvlink2_mmap K current_mm newdev data vma).vma.vm_start = vma.vm_start ∧
    (vfio_pci_nvlink2_mmap K current_mm newdev data vma).vma.vm_end = vma.vm_end ∧
    (vfio_pci_nvlink2_mmap K current_mm newdev data vma).vma.vm_pgoff = vma.vm_pgoff := by
  unfold vfio_pci_nvlink2_mmap
  split
  · exact ⟨rfl, rfl, rfl, rfl, rfl⟩
  · split
    · exact ⟨rfl, rfl, rfl, rfl, rfl⟩
    · refine ⟨?_, ?_, rfl, rfl, rfl⟩ <;> dsimp only <;> split <;> rfl

/-- A call that returns 0 has passed both checks (error numbers are not 0). -/
theorem mmap_ok_passed (K : Consts) (current_mm : Nat)
    (newdev : Nat → Nat → Nat → Nat → NewdevOut)
    (data : vfio_pci_gpu_nvlink2_data) (vma : vm_area_struct)
    (hEPERM : K.EPERM ≠ 0) (hEINVAL : K.EINVAL ≠ 0)
    (hok : (vfio_pci_nvlink2_mmap K current_mm newdev data vma).ret = 0) :
    data.useraddr = 0 ∧ sub_ul vma.vm_end vma.vm_start ≤ data.size := by
  by_cases h0 : data.useraddr = 0
  · refine ⟨h0, ?_⟩
    by_contra hlen
    have hgt : sub_ul vma.vm_end vma.vm_start > data.size := Nat.not_le.mp hlen
    simp [vfio_pci_nvlink2_mmap, h0, hgt] at hok
    exact hEINVAL hok
  · rw [mmap_eperm K current_mm newdev data vma h0] at hok
    simp at hok
    exact absurd hok hEPERM

/-- The page frame of the fault handler without wrap-around: for a fault
address at or after `vm_start`, `pfn` is `(gpu_hpa >> PAGE_SHIFT)` plus the
page index. -/
theorem fault_pfn_eq (K : Consts) (data : vfio_pci_gpu_nvlink2_data) (vma : vm_area_struct)
    (a : Nat) (hps : 2 ≤ K.PAGE_SHIFT) (hhpa : data.gpu_hpa < 2 ^ 64) :
    fault_pfn K data vma a = (data.gpu_hpa >>> K.PAGE_SHIFT) + page_index K vma a := by
  have h1 := shiftRight_lt_of_two_le hhpa hps
  have h2 := region_pgoff_lt K vma
  have h3 : vmf_off K vma a < 2 ^ 62 := shiftRight_lt_of_two_le (sub_ul_lt _ _) hps
  unfold fault_pfn page_index add_ul
  dsimp only
  generalize data.gpu_hpa >>> K.PAGE_SHIFT = n at h1 ⊢
  generalize region_pgoff K vma = p at h2 ⊢
  generalize vmf_off K vma a = v at h3 ⊢
  omega

theorem vmf_off_eq (K : Consts) (vma : vm_area_struct) (a : Nat)
    (hlo : vma.vm_start ≤ a) (ha : a < 2 ^ 64) :
    vmf_off K vma a = (a - vma.vm_start) / 2 ^ K.PAGE_SHIFT := by
  unfold vmf_off
  rw [sub_ul_of_le hlo ha, Nat.shiftRight_eq_div_pow]

/-- The mask of the fault handler is `2 ^ (VFIO_PCI_OFFSET_SHIFT - PAGE_SHIFT) - 1`
when the shift count fits the `unsigned int` it is computed in. -/
theorem pgoff_mask_eq (K : Consts) (hshift : K.VFIO_PCI_OFFSET_SHIFT - K.PAGE_SHIFT < 32) :
    pgoff_mask K = 2 ^ (K.VFIO_PCI_OFFSET_SHIFT - K.PAGE_SHIFT) - 1 := by
  have hlt : 2 ^ (K.VFIO_PCI_OFFSET_SHIFT - K.PAGE_SHIFT) < 2 ^ 32 :=
    Nat.pow_lt_pow_right (by decide) hshift
  have hpos : 0 < 2 ^ (K.VFIO_PCI_OFFSET_SHIFT - K.PAGE_SHIFT) := Nat.two_pow_pos _
  unfold pgoff_mask
  generalize 2 ^ (K.VFIO_PCI_OFFSET_SHIFT - K.PAGE_SHIFT) = m at hlt hpos ⊢
  omega

/-- The page offset of a mapping inside its region is `vm_pgoff` without the
region index bits: `vm_pgoff` modulo `2 ^ (VFIO_PCI_OFFSET_SHIFT - PAGE_SHIFT)`. -/
theorem region_pgoff_eq_mod (K : Consts) (vma : vm_area_struct)
    (hshift : K.VFIO_PCI_OFFSET_SHIFT - K.PAGE_SHIFT < 32) :
    region_pgoff K vma = vma.vm_pgoff % 2 ^ (K.VFIO_PCI_OFFSET_SHIFT - K.PAGE_SHIFT) := by
  unfold region_pgoff
  rw [pgoff_mask_eq K hshift, Nat.and_pow_two_sub_one_eq_mod]

/-- C5: after a successful `vfio_pci_nvlink2_mmap` (it returned 0) the vma
carries the fault handler, and for every address `a` in `[vm_start, vm_end)`
`vfio_pci_nvlink2_mmap_fault` installs, with one `vm_insert_pfn` call at `a`,
the page frame `(gpu_hpa >> PAGE_SHIFT) + pageIndex`, where `pageIndex` is the
page offset of the mapping in the region, that is `vm_pgoff` of the vma modulo
`2 ^ (VFIO_PCI_OFFSET_SHIFT - PAGE_SHIFT)`, plus `(a - vm_start) >> PAGE_SHIFT`,
and returns `VM_FAULT_NOPAGE` when the insertion succeeds; `pageIndex` is
non-decreasing in `a` and grows by exactly 1 per page. -/
theorem fault_linear (K : Consts) (current_mm : Nat)
    (newdev : Nat → Nat → Nat → Nat → NewdevOut) (vm_insert_pfn_ret : Int)
    (data : vfio_pci_gpu_nvlink2_data) (vma : vm_area_struct)
    (hps : 2 ≤ K.PAGE_SHIFT) (hshift : K.VFIO_PCI_OFFSET_SHIFT - K.PAGE_SHIFT < 32)
    (hEPERM : K.EPERM ≠ 0) (hEINVAL : K.EINVAL ≠ 0)
    (hhpa : data.gpu_hpa < 2 ^ 64) (hend : vma.vm_end ≤ 2 ^ 64)
    (hok : (vfio_pci_nvlink2_mmap K current_mm newdev data vma).ret = 0) :
    (vfio_pci_nvlink2_mmap K current_mm newdev data vma).vma.vm_ops =
      some vm_operations_struct.vfio_pci_nvlink2_mmap_vmops ∧
    (vfio_pci_nvlink2_mmap K current_mm newdev data vma).vma.vm_private_data = true ∧
    (∀ a, vma.vm_start ≤ a → a < vma.vm_end →
      (vfio_pci_nvlink2_mmap_fault K vm_insert_pfn_ret
        (vfio_pci_nvlink2_mmap K current_mm newdev data vma).data
        (vfio_pci_nvlink2_mmap K current_mm newdev data vma).vma a).calls =
        [Call.vm_insert_pfn a
          ((data.gpu_hpa >>> K.PAGE_SHIFT) +
            (vma.vm_pgoff % 2 ^ (K.VFIO_PCI_OFFSET_SHIFT - K.PAGE_SHIFT) +
              ((a - vma.vm_start) >>> K.PAGE_SHIFT)))] ∧
      (vm_insert_pfn_ret = 0 →
        (vfio_pci_nvlink2_mmap_fault K vm_insert_pfn_ret
          (vfio_pci_nvlink2_mmap K current_mm newdev data vma).data
          (vfio_pci_nvlink2_mmap K current_mm newdev data vma).vma a).ret =
          K.VM_FAULT_NOPAGE) ∧
      page_index K vma a =
        vma.vm_pgoff % 2 ^ (K.VFIO_PCI_OFFSET_SHIFT - K.PAGE_SHIFT) +
          ((a - vma.vm_start) >>> K.PAGE_SHIFT)) ∧
    (∀ a b, vma.vm_start ≤ a → a ≤ b → b < vma.vm_end →
      page_index K vma a ≤ page_index K vma b) ∧
    (∀ a, vma.vm_start ≤ a → a + PAGE_SIZE K < vma.vm_end →
      page_index K vma (a + PAGE_SIZE K) = page_index K vma a + 1) := by
  obtain ⟨h0, hlen⟩ := mmap_ok_passed K current_mm newdev data vma hEPERM hEINVAL hok
  have hlen2 : ¬ sub_ul vma.vm_end vma.vm_start > data.size := Nat.not_lt.mpr hlen
  obtain ⟨khpa, -, kstart, -, kpgoff⟩ := mmap_keeps_window K current_mm newdev data vma
  refine ⟨?_, ?_, ?_, ?_, ?_⟩
  · simp [vfio_pci_nvlink2_mmap, h0, hlen2]
  · simp [vfio_pci_nvlink2_mmap, h0, hlen2]
  · intro a hlo hhi
    have ha : a < 2 ^ 64 := Nat.lt_of_lt_of_le hhi hend
    have hpage : page_index K vma a =
        vma.vm_pgoff % 2 ^ (K.VFIO_PCI_OFFSET_SHIFT - K.PAGE_SHIFT) +
          ((a - vma.vm_start) >>> K.PAGE_SHIFT) := by
      simp only [page_index, vmf_off_eq K vma a hlo ha, Nat.shiftRight_eq_div_pow,
        region_pgoff_eq_mod K vma hshift]
    refine ⟨?_, ?_, hpage⟩
    · have hpfn := fault_pfn_eq K (vfio_pci_nvlink2_mmap K current_mm newdev data vma).data
        (vfio_pci_nvlink2_mmap K current_mm newdev data vma).vma a hps (by rw [khpa]; exact hhpa)
      have hidx : page_index K (vfio_pci_nvlink2_mmap K current_mm newdev data vma).vma a =
          page_index K vma a := by
        simp only [page_index, region_pgoff, vmf_off, kstart, kpgoff]
      simp only [vfio_pci_nvlink2_mmap_fault, hpfn, hidx, khpa, hpage]
    · intro hret
      simp [vfio_pci_nvlink2_mmap_fault, hret]
  · intro a b hlo hab hhi
    have hb : b < 2 ^ 64 := Nat.lt_of_lt_of_le hhi hend
    have ha : a < 2 ^ 64 := Nat.lt_of_le_of_lt hab hb
    simp only [page_index, vmf_off_eq K vma a hlo ha,
      vmf_off_eq K vma b (Nat.le_trans hlo hab) hb]
    exact Nat.add_le_add_left (Nat.div_le_div_right (Nat.sub_le_sub_right hab _)) _
  · intro a hlo hhi
    have hb : a + PAGE_SIZE K < 2 ^ 64 := Nat.lt_of_lt_of_le hhi hend
    have ha : a < 2 ^ 64 := Nat.lt_of_le_of_lt (Nat.le_add_right _ _) hb
    have hpos : 0 < 2 ^ K.PAGE_SHIFT := Nat.two_pow_pos _
    have e1 := vmf_off_eq K vma a hlo ha
    have e2 := vmf_off_eq K vma (a + PAGE_SIZE K) (Nat.le_trans hlo (Nat.le_add_right _ _)) hb
    unfold page_index
    rw [e1, e2]
    unfold PAGE_SIZE
    rw [Nat.sub_add_comm hlo, Nat.add_div_right _ hpos, Nat.add_assoc]

/-- Instance of `fault_linear`. The end-to-end scenario: GPU RAM at
0x0002000000000000 of 0x1000000000 bytes, 4 KiB pages, the whole region mapped
at region offset 0; the mapping succeeds and a fault at offset 0x1000 of the
mapping installs page frame `(0x0002000000000000 >> 12) + 1`. And a mapping of
64 KiB placed at page offset 3 of the region (`vm_pgoff = 0x90000003`): a fault
at offset 0x2000 of the mapping installs page frame
`(0x0002000000000000 >> 12) + 3 + 2`. -/
theorem fault_linear_witness :
    (vfio_pci_nvlink2_mmap ppc64_4k 7 (fun _ _ _ _ => { ret := 0, mem := some 1 })
      gpu_data vma_full).ret = 0 ∧
    (vfio_pci_nvlink2_mmap_fault ppc64_4k 0
      (vfio_pci_nvlink2_mmap ppc64_4k 7 (fun _ _ _ _ => { ret := 0, mem := some 1 })
        gpu_data vma_full).data
      (vfio_pci_nvlink2_mmap ppc64_4k 7 (fun _ _ _ _ => { ret := 0, mem := some 1 })
        gpu_data vma_full).vma (0x7fff00000000 + 0x1000)).calls =
      [Call.vm_insert_pfn (0x7fff00000000 + 0x1000) ((0x0002000000000000 >>> 12) + 1)] ∧
    (vfio_pci_nvlink2_mmap ppc64_4k 7 (fun _ _ _ _ => { ret := 0, mem := some 1 })
      gpu_data vma_64k_off3).ret = 0 ∧
    (vfio_pci_nvlink2_mmap_fault ppc64_4k 0
      (vfio_pci_nvlink2_mmap ppc64_4k 7 (fun _ _ _ _ => { ret := 0, mem := some 1 })
        gpu_data vma_64k_off3).data
      (vfio_pci_nvlink2_mmap ppc64_4k 7 (fun _ _ _ _ => { ret := 0, mem := some 1 })
        gpu_data vma_64k_off3).vma (0x7fff00000000 + 0x2000)).calls =
      [Call.vm_insert_pfn (0x7fff00000000 + 0x2000)
        ((0x0002000000000000 >>> 12) + 3 + 2)] ∧
    page_index ppc64_4k vma_64k_off3 (0x7fff00000000 + 0x2000) = 3 + 2 := by
  have h := fault_linear ppc64_4k 7 (fun _ _ _ _ => { ret := 0, mem := some 1 }) 0
    gpu_data vma_full (by decide) (by decide) (by decide) (by decide) (by decide)
    (by decide) (by decide)
  have h3 := fault_linear ppc64_4k 7 (fun _ _ _ _ => { ret := 0, mem := some 1 }) 0
    gpu_data vma_64k_off3 (by decide) (by decide) (by decide) (by decide) (by decide)
    (by decide) (by decide)
  refine ⟨by decide, ?_, by decide, ?_, ?_⟩
  · rw [(h.2.2.1 (0x7fff00000000 + 0x1000) (by decide) (by decide)).1]
    decide
  · rw [(h3.2.2.1 (0x7fff00000000 + 0x2000) (by decide) (by decide)).1]
    decide
  · rw [(h3.2.2.1 (0x7fff00000000 + 0x2000) (by decide) (by decide)).2.2]
    decide

/-- What the checks of `vfio_pci_nvlink2_mmap` do guarantee about the fault
handler: when the mapping, placed at its page offset in the region, ends inside
the region, every page frame installed for an address of the mapping lies in
the device RAM window. -/
theorem fault_pfn_in_window (K : Consts) (data : vfio_pci_gpu_nvlink2_data)
    (vma : vm_area_struct) (a : Nat)
    (hps : 2 ≤ K.PAGE_SHIFT) (hhpa : data.gpu_hpa < 2 ^ 64) (hend : vma.vm_end ≤ 2 ^ 64)
    (hlo : vma.vm_start ≤ a) (hhi : a < vma.vm_end)
    (hpages : PAGE_SIZE K ∣ vma.vm_end - vma.vm_start)
    (hfit : region_pgoff K vma * PAGE_SIZE K + (vma.vm_end - vma.vm_start) ≤ data.size) :
    data.gpu_hpa >>> K.PAGE_SHIFT ≤ fault_pfn K data vma a ∧
    fault_pfn K data vma a < (data.gpu_hpa + data.size) >>> K.PAGE_SHIFT := by
  have ha : a < 2 ^ 64 := Nat.lt_of_lt_of_le hhi hend
  have hpos : 0 < 2 ^ K.PAGE_SHIFT := Nat.two_pow_pos _
  rw [fault_pfn_eq K data vma a hps hhpa]
  refine ⟨Nat.le_add_right _ _, ?_⟩
  simp only [page_index, vmf_off_eq K vma a hlo ha, Nat.shiftRight_eq_div_pow]
  obtain ⟨k, hk⟩ := hpages
  simp only [PAGE_SIZE] at hk hfit
  have hoff : (a - vma.vm_start) / 2 ^ K.PAGE_SHIFT < k := by
    apply Nat.div_lt_of_lt_mul
    rw [← hk]
    omega
  rw [Nat.lt_iff_add_one_le, Nat.le_div_iff_mul_le hpos]
  have hbase : data.gpu_hpa / 2 ^ K.PAGE_SHIFT * 2 ^ K.PAGE_SHIFT ≤ data.gpu_hpa :=
    Nat.div_mul_le_self _ _
  have hsum : (region_pgoff K vma + (a - vma.vm_start) / 2 ^ K.PAGE_SHIFT + 1)
      * 2 ^ K.PAGE_SHIFT ≤ (region_pgoff K vma + k) * 2 ^ K.PAGE_SHIFT :=
    Nat.mul_le_mul_right _ (by omega)
  have hk2 : (region_pgoff K vma + k) * 2 ^ K.PAGE_SHIFT =
      region_pgoff K vma * 2 ^ K.PAGE_SHIFT + (vma.vm_end - vma.vm_start) := by
    rw [hk]; ring
  calc (data.gpu_hpa / 2 ^ K.PAGE_SHIFT +
          (region_pgoff K vma + (a - vma.vm_start) / 2 ^ K.PAGE_SHIFT) + 1) * 2 ^ K.PAGE_SHIFT
      = data.gpu_hpa / 2 ^ K.PAGE_SHIFT * 2 ^ K.PAGE_SHIFT +
          (region_pgoff K vma + (a - vma.vm_start) / 2 ^ K.PAGE_SHIFT + 1)
            * 2 ^ K.PAGE_SHIFT := by ring
    _ ≤ data.gpu_hpa + (region_pgoff K vma + k) * 2 ^ K.PAGE_SHIFT :=
        Nat.add_le_add hbase hsum
    _ ≤ data.gpu_hpa + data.size := by rw [hk2]; exact Nat.add_le_add_left hfit _

/-- C10: the page frames are not confined to the device RAM window. For GPU
RAM of one 4 KiB page (`one_page_data`) `vfio_pci_nvlink2_mmap` accepts a vma
of one page placed at page offset 1 of the region (the length check does not
look at `vm_pgoff`), and the fault handler then installs for the first address
of the vma the page frame `(gpu_hpa + size) >> PAGE_SHIFT`, the first one past
the window. -/
theorem fault_pfn_past_window :
    (vfio_pci_nvlink2_mmap ppc64_4k 7 (fun _ _ _ _ => { ret := 0, mem := some 1 })
      one_page_data vma_page_off1).ret = 0 ∧
    (vfio_pci_nvlink2_mmap_fault ppc64_4k 0
      (vfio_pci_nvlink2_mmap ppc64_4k 7 (fun _ _ _ _ => { ret := 0, mem := some 1 })
        one_page_data vma_page_off1).data
      (vfio_pci_nvlink2_mmap ppc64_4k 7 (fun _ _ _ _ => { ret := 0, mem := some 1 })
        one_page_data vma_page_off1).vma 0x7fff00000000).calls =
      [Call.vm_insert_pfn 0x7fff00000000 0x2000000001] ∧
    (one_page_data.gpu_hpa + one_page_data.size) >>> ppc64_4k.PAGE_SHIFT = 0x2000000001 ∧
    ¬ (0x2000000001 < (one_page_data.gpu_hpa + one_page_data.size) >>> ppc64_4k.PAGE_SHIFT) := by
  decide

/-! ## `vfio_pci_nvlink2_release` -/

/-- C6: `vfio_pci_nvlink2_release` calls `mm_iommu_put` exactly once and
`mmdrop` exactly once when `data->mm` is set (on that process, with the handle
of the region) and never when it is not set, whatever `mm_iommu_put` returns;
in both cases its last three calls are, in this order, the unregistration of
the group notifier, `pnv_npu2_map_lpar_dev` for partition 0 with
`MSR_DR | MSR_PR | MSR_HV`, and the `kfree` of the region data, with no `kfree`
before them; it propagates no error, and when the routing call succeeds the
routing is the no-guest one. -/
theorem release_effects (K : Consts) (mm_iommu_put_ret map_lpar_ret : Int)
    (data : vfio_pci_gpu_nvlink2_data) (r : Routing) :
    ((vfio_pci_nvlink2_release K mm_iommu_put_ret map_lpar_ret data r).calls.countP
        Call.is_mm_iommu_put = if data.mm.isSome then 1 else 0) ∧
    ((vfio_pci_nvlink2_release K mm_iommu_put_ret map_lpar_ret data r).calls.countP
        Call.is_mmdrop = if data.mm.isSome then 1 else 0) ∧
    (∀ mm, data.mm = some mm →
      Call.mm_iommu_put mm data.mem ∈
        (vfio_pci_nvlink2_release K mm_iommu_put_ret map_lpar_ret data r).calls ∧
      Call.mmdrop mm ∈
        (vfio_pci_nvlink2_release K mm_iommu_put_ret map_lpar_ret data r).calls) ∧
    (∃ pre, (vfio_pci_nvlink2_release K mm_iommu_put_ret map_lpar_ret data r).calls =
        pre ++ [Call.vfio_unregister_notifier data.gpdev,
                Call.pnv_npu2_map_lpar_dev data.gpdev 0 0 (K.MSR_DR ||| K.MSR_PR ||| K.MSR_HV),
                Call.kfree] ∧
      Call.kfree ∉ pre ∧ (data.mm = none → pre = [])) ∧
    (vfio_pci_nvlink2_release K mm_iommu_put_ret map_lpar_ret data r).error = none ∧
    (map_lpar_ret = 0 →
      (vfio_pci_nvlink2_release K mm_iommu_put_ret map_lpar_ret data r).routing =
        { lparid := 0, lpcr := 0, msr := K.MSR_DR ||| K.MSR_PR ||| K.MSR_HV }) := by
  cases hmm : data.mm with
  | none =>
    refine ⟨?_, ?_, ?_, ⟨[], ?_, ?_, ?_⟩, rfl, ?_⟩
    · simp [vfio_pci_nvlink2_release, hmm, Call.is_mm_iommu_put]
    · simp [vfio_pci_nvlink2_release, hmm, Call.is_mmdrop]
    · intro mm h; cases h
    · simp [vfio_pci_nvlink2_release, hmm]
    · simp
    · intro _; rfl
    · intro h; simp [vfio_pci_nvlink2_release, pnv_npu2_map_lpar_dev, h]
  | some mm =>
    refine ⟨?_, ?_, ?_, ⟨[Call.mm_iommu_put mm data.mem] ++
        (if mm_iommu_put_ret ≠ 0 then [Call.WARN] else []) ++ [Call.mmdrop mm], ?_, ?_, ?_⟩,
      rfl, ?_⟩
    · by_cases hp : mm_iommu_put_ret = 0 <;>
        simp [vfio_pci_nvlink2_release, hmm, hp, Call.is_mm_iommu_put]
    · by_cases hp : mm_iommu_put_ret = 0 <;>
        simp [vfio_pci_nvlink2_release, hmm, hp, Call.is_mmdrop]
    · intro mm2 h
      cases h
      by_cases hp : mm_iommu_put_ret = 0 <;> simp [vfio_pci_nvlink2_release, hmm, hp]
    · simp [vfio_pci_nvlink2_release, hmm]
    · by_cases hp : mm_iommu_put_ret = 0 <;> simp [hp]
    · intro h; cases h
    · intro h; simp [vfio_pci_nvlink2_release, pnv_npu2_map_lpar_dev, h]

/-- Instance of `release_effects`: the release of the never mapped region
`gpu_data` makes exactly the three unconditional calls, and leaves the
no-guest routing when the routing call succeeds; the release of the mapped
region `gpu_data_mapped` calls `mm_iommu_put` and `mmdrop` on process 7, also
when `mm_iommu_put` fails. -/
theorem release_effects_witness :
    (vfio_pci_nvlink2_release ppc64_4k 0 0 gpu_data (guest_routing ppc64_4k 5)).calls =
      [Call.vfio_unregister_notifier (some 1),
       Call.pnv_npu2_map_lpar_dev (some 1) 0 0 0x1000000000004010,
       Call.kfree] ∧
    (vfio_pci_nvlink2_release ppc64_4k 0 0 gpu_data (guest_routing ppc64_4k 5)).routing =
      { lparid := 0, lpcr := 0, msr := 0x1000000000004010 } ∧
    (Call.mm_iommu_put 7 (some 1) ∈
        (vfio_pci_nvlink2_release ppc64_4k (-1) 0 gpu_data_mapped
          (guest_routing ppc64_4k 5)).calls ∧
      Call.mmdrop 7 ∈
        (vfio_pci_nvlink2_release ppc64_4k (-1) 0 gpu_data_mapped
          (guest_routing ppc64_4k 5)).calls) := by
  have h := release_effects ppc64_4k 0 0 gpu_data (guest_routing ppc64_4k 5)
  obtain ⟨pre, hcalls, -, hpre⟩ := h.2.2.2.1
  refine ⟨?_, ?_, ?_⟩
  · rw [hcalls, hpre rfl]
    decide
  · rw [h.2.2.2.2.2 rfl]
    decide
  · exact (release_effects ppc64_4k (-1) 0 gpu_data_mapped (guest_routing ppc64_4k 5)).2.2.1
      7 rfl

/-! ## `vfio_pci_nvlink2_group_notifier` -/

/-- C7: for every partition id `lpid` and every routing `r0` before the
events, a `SET_KVM` event with a guest followed at once by a `SET_KVM` event
with no guest, both `pnv_npu2_map_lpar_dev` calls succeeding, makes both
callbacks return `NOTIFY_OK`; after the first the device is routed to `lpid`
with `MSR_DR | MSR_PR`, after the second to partition 0 with
`MSR_DR | MSR_PR | MSR_HV`, which is the routing before the attach whenever
that was the host-exclusive one, and the routing a detach with no attach
before it leaves; each callback makes exactly one `pnv_npu2_map_lpar_dev` call,
with these arguments. -/
theorem attach_detach_restores_host (K : Consts) (data : vfio_pci_gpu_nvlink2_data)
    (r0 : Routing) (lpid : Nat) :
    (vfio_pci_nvlink2_group_notifier K 0 data r0 K.VFIO_GROUP_NOTIFY_SET_KVM
      (some lpid)).ret = K.NOTIFY_OK ∧
    (vfio_pci_nvlink2_group_notifier K 0 data r0 K.VFIO_GROUP_NOTIFY_SET_KVM
      (some lpid)).routing = { lparid := lpid, lpcr := 0, msr := K.MSR_DR ||| K.MSR_PR } ∧
    (vfio_pci_nvlink2_group_notifier K 0 data
      (vfio_pci_nvlink2_group_notifier K 0 data r0 K.VFIO_GROUP_NOTIFY_SET_KVM
        (some lpid)).routing K.VFIO_GROUP_NOTIFY_SET_KVM none).ret = K.NOTIFY_OK ∧
    (vfio_pci_nvlink2_group_notifier K 0 data
      (vfio_pci_nvlink2_group_notifier K 0 data r0 K.VFIO_GROUP_NOTIFY_SET_KVM
        (some lpid)).routing K.VFIO_GROUP_NOTIFY_SET_KVM none).routing =
      { lparid := 0, lpcr := 0, msr := K.MSR_DR ||| K.MSR_PR ||| K.MSR_HV } ∧
    (r0 = { lparid := 0, lpcr := 0, msr := K.MSR_DR ||| K.MSR_PR ||| K.MSR_HV } →
      (vfio_pci_nvlink2_group_notifier K 0 data
        (vfio_pci_nvlink2_group_notifier K 0 data r0 K.VFIO_GROUP_NOTIFY_SET_KVM
          (some lpid)).routing K.VFIO_GROUP_NOTIFY_SET_KVM none).routing = r0) ∧
    (vfio_pci_nvlink2_group_notifier K 0 data
      (vfio_pci_nvlink2_group_notifier K 0 data r0 K.VFIO_GROUP_NOTIFY_SET_KVM
        (some lpid)).routing K.VFIO_GROUP_NOTIFY_SET_KVM none).routing =
      (vfio_pci_nvlink2_group_notifier K 0 data r0 K.VFIO_GROUP_NOTIFY_SET_KVM none).routing ∧
    (vfio_pci_nvlink2_group_notifier K 0 data r0 K.VFIO_GROUP_NOTIFY_SET_KVM
      (some lpid)).calls =
      [Call.pnv_npu2_map_lpar_dev data.gpdev lpid 0 (K.MSR_DR ||| K.MSR_PR)] ∧
    (vfio_pci_nvlink2_group_notifier K 0 data
      (vfio_pci_nvlink2_group_notifier K 0 data r0 K.VFIO_GROUP_NOTIFY_SET_KVM
        (some lpid)).routing K.VFIO_GROUP_NOTIFY_SET_KVM none).calls =
      [Call.pnv_npu2_map_lpar_dev data.gpdev 0 0 (K.MSR_DR ||| K.MSR_PR ||| K.MSR_HV)] := by
  refine ⟨?_, ?_, ?_, ?_, ?_, ?_, ?_, ?_⟩
  · simp [vfio_pci_nvlink2_group_notifier]
  · simp [vfio_pci_nvlink2_group_notifier, pnv_npu2_map_lpar_dev]
  · simp [vfio_pci_nvlink2_group_notifier]
  · simp [vfio_pci_nvlink2_group_notifier, pnv_npu2_map_lpar_dev]
  · intro h
    rw [h]
    simp [vfio_pci_nvlink2_group_notifier, pnv_npu2_map_lpar_dev]
  · simp [vfio_pci_nvlink2_group_notifier, pnv_npu2_map_lpar_dev]
  · simp [vfio_pci_nvlink2_group_notifier]
  · simp [vfio_pci_nvlink2_group_notifier]

/-- Instance of `attach_detach_restores_host`: from the host-exclusive routing,
an attach of partition 5 followed by a detach leaves the routing it started
from, partition 0 with flags 0x1000000000004010. -/
theorem attach_detach_restores_host_witness :
    (vfio_pci_nvlink2_group_notifier ppc64_4k 0 gpu_data
      (vfio_pci_nvlink2_group_notifier ppc64_4k 0 gpu_data (host_routing ppc64_4k) 1
        (some 5)).routing 1 none).routing = host_routing ppc64_4k ∧
    host_routing ppc64_4k = { lparid := 0, lpcr := 0, msr := 0x1000000000004010 } ∧
    (vfio_pci_nvlink2_group_notifier ppc64_4k 0 gpu_data (host_routing ppc64_4k) 1
      (some 5)).routing = { lparid := 5, lpcr := 0, msr := 0x4010 } :=
  ⟨(attach_detach_restores_host ppc64_4k gpu_data (host_routing ppc64_4k) 5).2.2.2.2.1 rfl,
   by decide, by decide⟩

/-- Events other than `SET_KVM` are acknowledged and change nothing; a failed
routing call makes the callback return `NOTIFY_BAD`. -/
theorem group_notifier_other (K : Consts) (map_lpar_ret : Int)
    (data : vfio_pci_gpu_nvlink2_data) (r : Routing) (action : Nat) (kvm : Option Nat) :
    (action ≠ K.VFIO_GROUP_NOTIFY_SET_KVM →
      vfio_pci_nvlink2_group_notifier K map_lpar_ret data r action kvm =
        { ret := K.NOTIFY_OK, routing := r, calls := [] }) ∧
    (action = K.VFIO_GROUP_NOTIFY_SET_KVM → map_lpar_ret ≠ 0 →
      (vfio_pci_nvlink2_group_notifier K map_lpar_ret data r action kvm).ret = K.NOTIFY_BAD) := by
  constructor
  · intro h
    simp [vfio_pci_nvlink2_group_notifier, h]
  · intro h hr
    cases kvm <;> simp [vfio_pci_nvlink2_group_notifier, h, hr]

/-! ## `vfio_pci_npu2_mmap` -/

/-- C8: `vfio_pci_npu2_mmap` returns `-EINVAL`, makes no call and leaves the vma
as it was whenever the requested length `vm_end - vm_start` is not `PAGE_SIZE`,
in particular when it is `PAGE_SIZE - 1` or `PAGE_SIZE + 1`; when the length is
`PAGE_SIZE` it sets `VM_PFNMAP`, makes the page protection non-cached and calls
`remap_pfn_range` once, for `PAGE_SIZE` bytes at `vm_start` from page frame
`mmio_atsd >> PAGE_SHIFT` with that protection, and returns what that call
returns, so it succeeds exactly when the remap succeeds. -/
theorem npu2_mmap_one_page (K : Consts) (pgprot_noncached : Nat → Nat) (remap_ret : Int)
    (data : vfio_pci_npu2_atsd_data) (vma : vm_area_struct) :
    (sub_ul vma.vm_end vma.vm_start ≠ PAGE_SIZE K →
      vfio_pci_npu2_mmap K pgprot_noncached remap_ret data vma =
        { ret := -K.EINVAL, vma := vma, calls := [] }) ∧
    (sub_ul vma.vm_end vma.vm_start = PAGE_SIZE K - 1 →
      vfio_pci_npu2_mmap K pgprot_noncached remap_ret data vma =
        { ret := -K.EINVAL, vma := vma, calls := [] }) ∧
    (sub_ul vma.vm_end vma.vm_start = PAGE_SIZE K + 1 →
      vfio_pci_npu2_mmap K pgprot_noncached remap_ret data vma =
        { ret := -K.EINVAL, vma := vma, calls := [] }) ∧
    (sub_ul vma.vm_end vma.vm_start = PAGE_SIZE K →
      vfio_pci_npu2_mmap K pgprot_noncached remap_ret data vma =
        { ret := remap_ret,
          vma := { vma with vm_flags := vma.vm_flags ||| K.VM_PFNMAP,
                            vm_page_prot := pgprot_noncached vma.vm_page_prot },
          calls := [Call.remap_pfn_range vma.vm_start (data.mmio_atsd >>> K.PAGE_SHIFT)
                      (PAGE_SIZE K) (pgprot_noncached vma.vm_page_prot)] } ∧
      ((vfio_pci_npu2_mmap K pgprot_noncached remap_ret data vma).ret = 0 ↔ remap_ret = 0)) := by
  have hne : ∀ {n : Nat}, sub_ul vma.vm_end vma.vm_start = n → n ≠ PAGE_SIZE K →
      vfio_pci_npu2_mmap K pgprot_noncached remap_ret data vma =
        { ret := -K.EINVAL, vma := vma, calls := [] } := by
    intro n hn hp
    simp [vfio_pci_npu2_mmap, hn, hp]
  have hpos : 0 < PAGE_SIZE K := Nat.two_pow_pos _
  refine ⟨fun h => hne rfl h, fun h => hne h (by omega), fun h => hne h (by omega), ?_⟩
  intro h
  constructor
  · simp [vfio_pci_npu2_mmap, h]
  · simp [vfio_pci_npu2_mmap, h]

/-- Instance of `npu2_mmap_one_page` with 4 KiB pages: a vma of 0x1000 bytes is
mapped non-cached (here protection bit 0x20) from page frame
`0x6030200000000 >> 12`, a vma of 0x1001 bytes is refused with -22. -/
theorem npu2_mmap_one_page_witness :
    vfio_pci_npu2_mmap ppc64_4k (fun p => p ||| 0x20) 0 atsd_data vma_one_page =
      { ret := 0,
        vma := { vm_start := 0x7fff00000000, vm_end := 0x7fff00001000,
                 vm_pgoff := 0xa0000000, vm_flags := 0x400, vm_page_prot := 0x20,
                 vm_private_data := false, vm_ops := none },
        calls := [Call.remap_pfn_range 0x7fff00000000 0x6030200000 0x1000 0x20] } ∧
    vfio_pci_npu2_mmap ppc64_4k (fun p => p ||| 0x20) 0 atsd_data
      { vm_start := 0x7fff00000000, vm_end := 0x7fff00001001, vm_pgoff := 0xa0000000,
        vm_flags := 0, vm_page_prot := 0, vm_private_data := false, vm_ops := none } =
      { ret := -22,
        vma := { vm_start := 0x7fff00000000, vm_end := 0x7fff00001001,
                 vm_pgoff := 0xa0000000, vm_flags := 0, vm_page_prot := 0,
                 vm_private_data := false, vm_ops := none },
        calls := [] } := by
  constructor
  · rw [((npu2_mmap_one_page ppc64_4k (fun p => p ||| 0x20) 0 atsd_data vma_one_page).2.2.2
      (by decide)).1]
    decide
  · rw [(npu2_mmap_one_page ppc64_4k (fun p => p ||| 0x20) 0 atsd_data _).2.2.1 (by decide)]
    decide

/-! ## `vfio_pci_nvlink2_init` -/

/-- C9: a failed `vfio_pci_nvlink2_init` can leave a region registered. With the
platform description `init_env_notifier_fails` the region registration
succeeds and the notifier registration fails with -22: the function returns
-22, has freed the region data, and the device remains with the GPU RAM region
in its table (nothing unregisters it), where it had none before. -/
theorem init_notifier_failure_leaves_region :
    vfio_pci_nvlink2_init ppc64_4k init_env_notifier_fails init_vdev =
      { ret := -22,
        vdev := { pdev := 1,
                  region := [{ type := 0x800010de, subtype := 1,
                               ops := vfio_pci_regops.vfio_pci_nvlink2_regops,
                               size := 0x1000000000, flags := 1 }] },
        notifier := false,
        data := Alloc.freed } ∧
    init_vdev.region = [] ∧
    (vfio_pci_nvlink2_init ppc64_4k init_env_notifier_fails init_vdev).vdev ≠ init_vdev := by
  decide

/-- The failure paths of `vfio_pci_nvlink2_init` that do clean up: whenever it
returns an error, no notifier is registered and the region data is not
allocated any more; the region table is as before except when the failure is
that of the notifier registration. -/
theorem init_failure_cleanup (K : Consts) (env : InitEnv) (vdev : vfio_pci_device)
    (hret : (vfio_pci_nvlink2_init K env vdev).ret ≠ 0) :
    (vfio_pci_nvlink2_init K env vdev).notifier = false ∧
    (∀ d, (vfio_pci_nvlink2_init K env vdev).data ≠ Alloc.live d) ∧
    ((vfio_pci_nvlink2_init K env vdev).vdev ≠ vdev →
      env.register_ret = 0 ∧ env.notifier_ret ≠ 0) := by
  unfold vfio_pci_nvlink2_init at hret ⊢
  cases h1 : env.npu_dev <;> cases h2 : env.npu_node <;> cases h3 : env.mem_phandle <;>
    cases h4 : env.mem_node <;> cases h5 : env.reg <;>
    simp only [h1, h2, h3, h4, h5] at hret ⊢
  all_goals first
    | (simp; done)
    | skip
  rename_i x1 x2 x3 x4 val
  by_cases hlen : (val.length : Int) = 16 <;> by_cases hk : env.kzalloc = false <;>
    by_cases hr : env.register_ret = 0 <;> by_cases hn : env.notifier_ret = 0 <;>
    simp [hlen, hk, hr, hn, vfio_pci_register_dev_region] at hret ⊢

/-- The end-to-end scenario at initialisation: with GPU RAM at
0x0002000000000000 of 64 GiB and every call succeeding,
`vfio_pci_nvlink2_init` returns 0, registers one readable region of that size
and the notifier, and leaves the region data not mapped. -/
theorem init_scenario :
    vfio_pci_nvlink2_init ppc64_4k { init_env_notifier_fails with notifier_ret := 0 }
      init_vdev =
      { ret := 0,
        vdev := { pdev := 1,
                  region := [{ type := 0x800010de, subtype := 1,
                               ops := vfio_pci_regops.vfio_pci_nvlink2_regops,
                               size := 0x1000000000, flags := 1 }] },
        notifier := true,
        data := Alloc.live gpu_data } := by
  decide

end Nvlink2
